import Mathlib

/-!
Verification of the conversation-state and prompt-assembly pipeline of the
AI chat service (source: src/ai-model/main.py).

The service is a FastAPI wrapper around an Ollama inference backend with a
Postgres store. We give a shallow embedding: the store is an explicit state
value, the environment records whether each best-effort database block
succeeds (the code catches every exception in those blocks), and the
inference backend is an oracle mapping the submitted prompt to an outcome.
All definitions are translated from the source; the sole spec-side
definition is `build_prompt_spec`, used to state the refinement claim about
prompt assembly.
-/

namespace AIModel

/-- Configured model identifier (default of the MODEL_NAME environment
variable in the source config block). -/
def MODEL_NAME : String := "tinyllama"

/-- Hexadecimal digit test, used by the UUID validity model. -/
def isHexDigit (c : Char) : Bool :=
  c.isDigit || (Char.ofNat 97 ≤ c && c ≤ Char.ofNat 102) ||
    (Char.ofNat 65 ≤ c && c ≤ Char.ofNat 70)

/-- Models whether Python uuid.UUID(s) parses, restricted to the canonical
8-4-4-4-12 hyphenated form (the form produced by uuid.uuid4 and used by
callers of this API). The read and write blocks of the handlers call
uuid.UUID on the conversation identifier inside their try blocks, so a
failed parse behaves exactly like a store exception there. -/
def validUUID (s : String) : Bool :=
  s.length == 36 &&
  (List.range 36).all (fun i =>
    if i == 8 || i == 13 || i == 18 || i == 23 then
      s.data.getD i ' ' == '-'
    else
      isHexDigit (s.data.getD i ' '))

/-- One persisted message row: role, content and the store-assigned
creation timestamp (modelled as a logical clock value). -/
structure Turn where
  role : String
  content : String
  created_at : Nat
  deriving DecidableEq, Repr

/-- State of the Postgres store: registered conversation ids, message rows
tagged with their conversation id in insertion order, and the clock that
assigns strictly increasing created_at values. -/
structure Store where
  conversations : List String
  messages : List (String × Turn)
  clock : Nat
  deriving DecidableEq, Repr

def emptyStore : Store := ⟨[], [], 0⟩

/-- INSERT INTO conversations(id) VALUES($1) ON CONFLICT DO NOTHING. -/
def Store.insertConversation (s : Store) (cid : String) : Store :=
  if cid ∈ s.conversations then s
  else { s with conversations := s.conversations ++ [cid] }

/-- INSERT INTO messages(conversation_id, role, content) VALUES($1,$2,$3);
created_at is assigned by the store, strictly increasing. -/
def Store.insertMessage (s : Store) (cid role content : String) : Store :=
  { s with
      messages := s.messages ++ [(cid, ⟨role, content, s.clock⟩)],
      clock := s.clock + 1 }

/-- The message rows of one conversation, in insertion order. -/
def Store.msgsAsc (s : Store) (cid : String) : List Turn :=
  (s.messages.filter (fun m => m.1 == cid)).map Prod.snd

/-- Comparison by created_at, ascending (ORDER BY created_at ASC). -/
def turnLE (a b : Turn) : Prop := a.created_at ≤ b.created_at

/-- Comparison by created_at, descending (ORDER BY created_at DESC). -/
def turnGE (a b : Turn) : Prop := b.created_at ≤ a.created_at

instance : DecidableRel turnLE := fun a b =>
  inferInstanceAs (Decidable (a.created_at ≤ b.created_at))

instance : DecidableRel turnGE := fun a b =>
  inferInstanceAs (Decidable (b.created_at ≤ a.created_at))

/-- SELECT role, content, created_at FROM messages WHERE conversation_id=$1
ORDER BY created_at ASC (the get_history query). -/
def Store.selectAsc (s : Store) (cid : String) : List Turn :=
  List.insertionSort turnLE (s.msgsAsc cid)

/-- SELECT role, content FROM messages WHERE conversation_id=$1
ORDER BY created_at DESC LIMIT limit (the chat history query). -/
def Store.selectDesc (s : Store) (cid : String) (limit : Nat) : List Turn :=
  (List.insertionSort turnGE (s.msgsAsc cid)).take limit

/-- Store well-formedness: message rows carry strictly increasing
created_at values (the store assigns them from a monotone clock), all below
the current clock. Holds for the empty store and is preserved by both
insert operations. -/
def Store.WF (s : Store) : Prop :=
  s.messages.Pairwise (fun a b => a.2.created_at < b.2.created_at) ∧
  ∀ m ∈ s.messages, m.2.created_at < s.clock

/-- One history entry as handed to the prompt builder: the role/content
dict built on the rows fetched in the chat handler. -/
structure Msg where
  role : String
  content : String
  deriving DecidableEq, Repr

/-- Direct translation of _build_prompt: fixed preamble, one rendered line
per history turn via string concatenation in a loop, then the cue. -/
def build_prompt (history : List Msg) (user_message : String) : String :=
  let p0 :=
    "You are a helpful, friendly AI assistant. " ++
    "Answer concisely and accurately.\n\n"
  let p1 := history.foldl
    (fun p msg =>
      p ++ (if msg.role == "user" then "User" else "Assistant") ++
        ": " ++ msg.content ++ "\n")
    p0
  p1 ++ "User: " ++ user_message ++ "\nAssistant:"

/-- The rendered line for one history turn, as the spec describes it:
label User when the role equals "user", label Assistant otherwise. -/
def renderLine (m : Msg) : String :=
  (if m.role = "user" then "User" else "Assistant") ++ ": " ++ m.content ++ "\n"

/-- The rendered history lines, one per turn, in the given order. -/
def renderLines : List Msg → String
  | [] => ""
  | m :: rest => renderLine m ++ renderLines rest

/-- Modelled from the spec wording of prompt assembly, for the refinement
claim: preamble, then the rendered history lines, then the cue. -/
def build_prompt_spec (history : List Msg) (new_message : String) : String :=
  "You are a helpful, friendly AI assistant. Answer concisely and accurately.\n\n"
    ++ renderLines history
    ++ ("User: " ++ new_message ++ "\nAssistant:")

lemma foldl_render_eq (l : List Msg) (init : String) :
    l.foldl
      (fun p msg =>
        p ++ (if msg.role == "user" then "User" else "Assistant") ++
          ": " ++ msg.content ++ "\n") init
      = init ++ renderLines l := by
  induction l generalizing init with
  | nil => simp [renderLines]
  | cons a l ih =>
      simp only [List.foldl_cons]
      rw [ih]
      simp [renderLines, renderLine, beq_iff_eq, String.append_assoc]

/-- Translation of Python str.strip() with no argument: remove leading and
trailing whitespace characters. -/
def pyStrip (s : String) : String :=
  ⟨((s.data.dropWhile Char.isWhitespace).reverse.dropWhile Char.isWhitespace).reverse⟩

/-- Request body of POST /chat (pydantic ChatRequest). -/
structure ChatRequest where
  message : String
  conversation_id : Option String
  deriving DecidableEq, Repr

/-- Response body of POST /chat (pydantic ChatResponse). -/
structure ChatResponse where
  response : String
  conversation_id : String
  model : String
  deriving DecidableEq, Repr

/-- Response body of GET /health (pydantic HealthResponse). -/
structure HealthResponse where
  status : String
  model : String
  ollama : String
  database : String
  deriving DecidableEq, Repr

/-- One item of the GET /conversations/id/messages response (pydantic
Message); created_at is the str() rendering of the row timestamp. -/
structure Message where
  role : String
  content : String
  created_at : Option String
  deriving DecidableEq, Repr

/-- A fastapi.HTTPException as raised by the handlers. -/
structure HTTPError where
  status_code : Nat
  detail : String
  deriving DecidableEq, Repr

/-- Environment for the store side of a request: the pool (none when the
startup connection failed, so db_pool is None), and whether the best-effort
read and write blocks run without a store exception. A False flag stands
for any exception raised inside the corresponding try block (connection
loss, query failure); the handlers catch all of them. -/
structure StoreEnv where
  pool : Option Store
  readOk : Bool
  writeOk : Bool
  deriving DecidableEq, Repr

/-- Outcome of the single POST to OLLAMA_HOST/api/generate: an HTTP
success whose JSON body may or may not carry a "response" field, a
non-success status (httpx raise_for_status raises HTTPStatusError), or a
failure to reach the backend at all (timeout, connection error). -/
inductive BackendResult where
  | success (responseField : Option String)
  | statusError (code : Nat)
  | unreachable
  deriving DecidableEq, Repr

/-- The backend as an oracle from the submitted prompt to the call
outcome. -/
def Backend : Type := String → BackendResult

/-- conversation_id = req.conversation_id or str(uuid.uuid4()): Python
truthiness makes both None and the empty string fall back to the freshly
generated uuid4 value (the freshId parameter). -/
def chatConvId (freshId : String) (req : ChatRequest) : String :=
  match req.conversation_id with
  | some c => if c = "" then freshId else c
  | none => freshId

/-- The history-loading block of the chat handler (lines 156-175): if a
pool exists, upsert the conversation, fetch the 10 newest rows
(ORDER BY created_at DESC LIMIT 10) and reverse them into oldest-first
role/content dicts. Any exception in the block — including the
uuid.UUID parse of a malformed id — is caught: history stays empty and
the store is unchanged. Returns the history and the store after the
block. -/
def loadHistory (env : StoreEnv) (cid : String) : List Msg × Option Store :=
  match env.pool with
  | none => ([], none)
  | some s =>
      if env.readOk && validUUID cid then
        let s1 := s.insertConversation cid
        let rows := s1.selectDesc cid 10
        (rows.reverse.map (fun t => ⟨t.role, t.content⟩), some s1)
      else ([], some s)

/-- The prompt the chat handler submits to the backend: built from the
loaded history and the request message. -/
def chatPrompt (env : StoreEnv) (freshId : String) (req : ChatRequest) : String :=
  build_prompt (loadHistory env (chatConvId freshId req)).1 req.message

/-- The persistence block of the chat handler (lines 203-216): if a pool
exists, insert the user turn then the assistant turn; any exception —
including the uuid.UUID parse of a malformed id — is caught and the
response is unaffected. -/
def persistTurns (env : StoreEnv) (store1 : Option Store) (cid userMsg aiText : String) :
    Option Store :=
  match store1 with
  | none => none
  | some s =>
      if env.writeOk && validUUID cid then
        some ((s.insertMessage cid "user" userMsg).insertMessage cid "assistant" aiText)
      else some s

/-- Result and final store state of one chat request. -/
structure ChatOutcome where
  result : Except HTTPError ChatResponse
  store : Option Store

/-- The POST /chat handler (lines 151-222): resolve the conversation id,
load history (best-effort), build the prompt, call the backend once; a
non-success status becomes HTTP 502, an unreachable backend HTTP 503; on
success strip the "response" field (empty string when absent), persist the
two turns (best-effort) and return the text, the resolved id and the model
name. -/
def chat (env : StoreEnv) (backend : Backend) (freshId : String) (req : ChatRequest) :
    ChatOutcome :=
  let cid := chatConvId freshId req
  let store1 := (loadHistory env cid).2
  match backend (chatPrompt env freshId req) with
  | .statusError _ => ⟨.error ⟨502, "AI service error"⟩, store1⟩
  | .unreachable => ⟨.error ⟨503, "AI service unavailable"⟩, store1⟩
  | .success body =>
      let ai_text := pyStrip (body.getD "")
      ⟨.ok ⟨ai_text, cid, MODEL_NAME⟩, persistTurns env store1 cid req.message ai_text⟩

/-- The GET /conversations/id/messages handler (lines 225-240): 503 when
db_pool is None; otherwise fetch the rows ordered by created_at ascending;
any exception in the try block — store failure or the uuid.UUID parse of a
malformed id — becomes a 500 whose detail is the str() of the exception
(the excDetail parameter). -/
def get_history (env : StoreEnv) (excDetail : String) (conversation_id : String) :
    Except HTTPError (List Message) :=
  match env.pool with
  | none => .error ⟨503, "Database not available"⟩
  | some s =>
      if env.readOk && validUUID conversation_id then
        .ok ((s.selectAsc conversation_id).map
          (fun t => ⟨t.role, t.content, some (toString t.created_at)⟩))
      else .error ⟨500, excDetail⟩

/-- The GET /health handler (lines 122-148): the Ollama probe result is
the HTTP status of GET /api/tags (none when the request raised), the store
probe is a SELECT 1 round-trip modelled by env.readOk; the handler itself
always returns status "healthy" with both sub-statuses. -/
def health (env : StoreEnv) (tags : Option Nat) : HealthResponse :=
  let ollama_status :=
    match tags with
    | some code => if code == 200 then "healthy" else "unhealthy"
    | none => "unreachable"
  let db_status :=
    match env.pool with
    | some _ => if env.readOk then "healthy" else "unhealthy"
    | none => "unavailable"
  ⟨"healthy", MODEL_NAME, ollama_status, db_status⟩

/-! Supporting lemmas about the store model. -/

lemma insertConversation_messages (s : Store) (cid : String) :
    (s.insertConversation cid).messages = s.messages := by
  unfold Store.insertConversation
  split <;> rfl

lemma insertConversation_msgsAsc (s : Store) (cid c : String) :
    (s.insertConversation cid).msgsAsc c = s.msgsAsc c := by
  unfold Store.msgsAsc
  rw [insertConversation_messages]

lemma insertConversation_WF {s : Store} (h : s.WF) (cid : String) :
    (s.insertConversation cid).WF := by
  rcases h with ⟨h1, h2⟩
  refine ⟨?_, ?_⟩
  · rw [insertConversation_messages]; exact h1
  · rw [insertConversation_messages]
    unfold Store.insertConversation
    split <;> exact h2

lemma insertMessage_WF {s : Store} (h : s.WF) (cid role content : String) :
    (s.insertMessage cid role content).WF := by
  rcases h with ⟨h1, h2⟩
  refine ⟨?_, ?_⟩
  · unfold Store.insertMessage
    rw [List.pairwise_append]
    refine ⟨h1, List.pairwise_singleton _ _, ?_⟩
    intro a ha b hb
    simp only [List.mem_singleton] at hb
    subst hb
    exact h2 a ha
  · intro m hm
    unfold Store.insertMessage at hm ⊢
    simp only [List.mem_append, List.mem_singleton] at hm
    rcases hm with hm | hm
    · exact Nat.lt_succ_of_lt (h2 m hm)
    · subst hm; exact Nat.lt_succ_self _

lemma emptyStore_WF : emptyStore.WF := by
  refine ⟨List.Pairwise.nil, ?_⟩
  intro m hm
  simp [emptyStore] at hm

lemma msgsAsc_pairwise {s : Store} (hwf : s.WF) (cid : String) :
    (s.msgsAsc cid).Pairwise (fun a b => a.created_at < b.created_at) := by
  unfold Store.msgsAsc
  rw [List.pairwise_map]
  exact hwf.1.sublist (List.filter_sublist _)

lemma orderedInsert_eq_append {α : Type} {r : α → α → Prop} [DecidableRel r]
    (a : α) (l : List α) (h : ∀ b ∈ l, ¬ r a b) :
    List.orderedInsert r a l = l ++ [a] := by
  induction l with
  | nil => rfl
  | cons b m ih =>
      simp only [List.orderedInsert]
      rw [if_neg (h b (by simp)), ih (fun x hx => h x (by simp [hx]))]
      rfl

lemma insertionSort_le_eq {l : List Turn}
    (h : l.Pairwise fun a b => a.created_at < b.created_at) :
    List.insertionSort turnLE l = l :=
  List.Sorted.insertionSort_eq (h.imp fun hab => Nat.le_of_lt hab)

lemma insertionSort_ge_eq_reverse {l : List Turn}
    (h : l.Pairwise fun a b => a.created_at < b.created_at) :
    List.insertionSort turnGE l = l.reverse := by
  induction l with
  | nil => rfl
  | cons a m ih =>
      rcases List.pairwise_cons.mp h with ⟨ha, hm⟩
      simp only [List.insertionSort]
      rw [ih hm, orderedInsert_eq_append]
      · simp
      · intro b hb hge
        exact absurd (ha b (List.mem_reverse.mp hb)) (Nat.not_lt.mpr hge)

lemma selectDesc_reverse_eq {s : Store} (hwf : s.WF) (cid : String) :
    (s.selectDesc cid 10).reverse
      = (s.msgsAsc cid).drop ((s.msgsAsc cid).length - 10) := by
  unfold Store.selectDesc
  rw [insertionSort_ge_eq_reverse (msgsAsc_pairwise hwf cid),
    ← List.rtake_eq_reverse_take_reverse]
  rfl

/-! Supporting lemmas about the chat handler. -/

lemma loadHistory_fail {env : StoreEnv} (cid : String)
    (h : env.pool = none ∨ env.readOk = false) :
    (loadHistory env cid).1 = [] := by
  unfold loadHistory
  rcases h with h | h
  · rw [h]
  · rw [h]
    cases env.pool <;> simp

lemma loadHistory_store_messages (env : StoreEnv) (cid : String) :
    ((loadHistory env cid).2).map Store.messages = env.pool.map Store.messages := by
  unfold loadHistory
  cases hp : env.pool with
  | none => rfl
  | some s =>
      by_cases h : env.readOk && validUUID cid
      · simp [h, insertConversation_messages]
      · simp [h]

lemma loadHistory_store_conversations (env : StoreEnv) (cid : String) :
    ((loadHistory env cid).2).map Store.conversations = env.pool.map Store.conversations ∨
    ((loadHistory env cid).2).map Store.conversations
      = env.pool.map (fun s => (s.insertConversation cid).conversations) := by
  unfold loadHistory
  cases hp : env.pool with
  | none => exact Or.inl rfl
  | some s =>
      by_cases h : env.readOk && validUUID cid
      · exact Or.inr (by simp [h])
      · exact Or.inl (by simp [h])

/-- A backend outcome that makes the request fail. -/
def BackendResult.isFailure : BackendResult → Prop
  | .success _ => False
  | .statusError _ => True
  | .unreachable => True

lemma chat_on_failed_backend (env : StoreEnv) (b : Backend) (f : String) (r : ChatRequest)
    (h : (b (chatPrompt env f r)).isFailure) :
    (chat env b f r).store = (loadHistory env (chatConvId f r)).2 ∧
    ((chat env b f r).result = .error ⟨502, "AI service error"⟩ ∨
      (chat env b f r).result = .error ⟨503, "AI service unavailable"⟩) := by
  unfold chat
  cases hb : b (chatPrompt env f r) with
  | success body => rw [hb] at h; exact absurd h (by simp [BackendResult.isFailure])
  | statusError code => exact ⟨rfl, Or.inl rfl⟩
  | unreachable => exact ⟨rfl, Or.inr rfl⟩

/-! Claim theorems. -/

/-- Claim C2: build_prompt returns exactly the fixed preamble, then one
line "User: content" or "Assistant: content" per history turn in the given
order (label User iff the role equals "user"), then the cue
"User: new_message\nAssistant:". -/
theorem claim_C2 (history : List Msg) (new_message : String) :
    build_prompt history new_message = build_prompt_spec history new_message := by
  simp only [build_prompt, build_prompt_spec]
  rw [foldl_render_eq]
  simp [String.append_assoc]

/-- Claim C3: a reachable backend returning a non-success status fails the
request as a 502 "AI service error"; an unreachable backend fails it as a
503 "AI service unavailable"; the two errors are distinct; and the backend
is consulted exactly once (the outcome depends only on the value of one
call at the assembled prompt), so no retry is attempted. -/
theorem claim_C3 (env : StoreEnv) (freshId : String) (req : ChatRequest) (code : Nat) :
    (chat env (fun _ => .statusError code) freshId req).result
        = .error ⟨502, "AI service error"⟩
    ∧ (chat env (fun _ => .unreachable) freshId req).result
        = .error ⟨503, "AI service unavailable"⟩
    ∧ (⟨502, "AI service error"⟩ : HTTPError) ≠ ⟨503, "AI service unavailable"⟩
    ∧ ∀ b1 b2 : Backend,
        b1 (chatPrompt env freshId req) = b2 (chatPrompt env freshId req) →
        chat env b1 freshId req = chat env b2 freshId req := by
  refine ⟨rfl, rfl, by decide, ?_⟩
  intro b1 b2 hb
  unfold chat
  rw [hb]

/-- Claim C3 witness at a concrete environment and request. -/
theorem claim_C3_witness :
    (chat ⟨some emptyStore, true, true⟩ (fun _ => .statusError 404) "f1" ⟨"hi", none⟩).result
      = .error ⟨502, "AI service error"⟩ :=
  (claim_C3 ⟨some emptyStore, true, true⟩ "f1" ⟨"hi", none⟩ 404).1

/-- Claim C9: the health probe always returns successfully with status
"healthy" and both sub-statuses populated; the reported Ollama sub-status
does not depend on the store environment, and the reported database
sub-status does not depend on the Ollama probe outcome. -/
theorem claim_C9 (env env2 : StoreEnv) (tags tags2 : Option Nat) :
    (health env tags).status = "healthy"
    ∧ (health env tags).ollama = (health env2 tags).ollama
    ∧ (health env tags).database = (health env tags2).database
    ∧ (health env tags).ollama ∈ (["healthy", "unhealthy", "unreachable"] : List String)
    ∧ (health env tags).database ∈ (["healthy", "unhealthy", "unavailable"] : List String) := by
  refine ⟨rfl, rfl, rfl, ?_, ?_⟩
  · unfold health
    cases tags with
    | none => simp
    | some code => by_cases h : code == 200 <;> simp [h]
  · unfold health
    cases env.pool with
    | none => simp
    | some s => by_cases h : env.readOk <;> simp [h]

/-- Claim C10: on a success status, the returned text is the JSON body
"response" field with surrounding whitespace stripped; a success body
without a "response" field yields the empty string, not an error. -/
theorem claim_C10 (env : StoreEnv) (freshId : String) (req : ChatRequest) (t : String) :
    (chat env (fun _ => .success (some t)) freshId req).result
        = .ok ⟨pyStrip t, chatConvId freshId req, MODEL_NAME⟩
    ∧ (chat env (fun _ => .success none) freshId req).result
        = .ok ⟨"", chatConvId freshId req, MODEL_NAME⟩ :=
  ⟨rfl, rfl⟩

/-- Claim C1: with the store unconfigured or unreachable, a chat request
still succeeds with the generated text, the prompt is assembled from the
empty history, and the result returned to the caller never depends on
whether the persistence block succeeds. -/
theorem claim_C1 (env : StoreEnv) (freshId : String) (req : ChatRequest) (body : Option String)
    (h : env.pool = none ∨ env.readOk = false) :
    (chat env (fun _ => .success body) freshId req).result
        = .ok ⟨pyStrip (body.getD ""), chatConvId freshId req, MODEL_NAME⟩
    ∧ chatPrompt env freshId req = build_prompt [] req.message
    ∧ ∀ (p : Option Store) (ro w1 w2 : Bool) (b : Backend) (f : String) (r : ChatRequest),
        (chat ⟨p, ro, w1⟩ b f r).result = (chat ⟨p, ro, w2⟩ b f r).result := by
  refine ⟨rfl, ?_, ?_⟩
  · unfold chatPrompt
    rw [loadHistory_fail _ h]
  · intro p ro w1 w2 b f r
    have hcp : chatPrompt ⟨p, ro, w1⟩ f r = chatPrompt ⟨p, ro, w2⟩ f r := rfl
    unfold chat
    rw [hcp]
    cases hb : b (chatPrompt ⟨p, ro, w2⟩ f r) <;> rfl

/-- Claim C1 witness: an unconfigured store, with the generated text
echoed back trimmed. -/
theorem claim_C1_witness :
    (chat ⟨none, true, true⟩ (fun _ => .success (some " hi there ")) "f1"
        ⟨"msg", none⟩).result = .ok ⟨"hi there", "f1", MODEL_NAME⟩ := by
  have h := (claim_C1 ⟨none, true, true⟩ "f1" ⟨"msg", none⟩ (some " hi there ")
      (Or.inl rfl)).1
  rw [h]
  rfl

/-- Claim C4: when the backend call fails, the request terminates with the
classified error and nothing is persisted: message rows are exactly those
already in the store, and the conversations table is at most extended by
the idempotent registration of the requested conversation id. -/
theorem claim_C4 (env : StoreEnv) (b : Backend) (freshId : String) (req : ChatRequest)
    (h : ∀ p, (b p).isFailure) :
    ((chat env b freshId req).result = .error ⟨502, "AI service error"⟩ ∨
      (chat env b freshId req).result = .error ⟨503, "AI service unavailable"⟩)
    ∧ ((chat env b freshId req).store).map Store.messages = env.pool.map Store.messages
    ∧ (((chat env b freshId req).store).map Store.conversations
          = env.pool.map Store.conversations ∨
        ((chat env b freshId req).store).map Store.conversations
          = env.pool.map (fun s => (s.insertConversation (chatConvId freshId req)).conversations))
    ∧ ∀ (s : Store) (c : String),
        (s.insertConversation c).insertConversation c = s.insertConversation c := by
  obtain ⟨hst, hres⟩ := chat_on_failed_backend env b freshId req (h _)
  refine ⟨hres, ?_, ?_, ?_⟩
  · rw [hst]; exact loadHistory_store_messages env _
  · rw [hst]; exact loadHistory_store_conversations env _
  · intro s c
    by_cases hc : c ∈ s.conversations <;> simp [Store.insertConversation, hc]

/-- Claim C4 witness: a failing backend leaves the single stored message
row untouched. -/
theorem claim_C4_witness :
    ((chat ⟨some ⟨["c1"], [("c1", ⟨"user", "hi", 0⟩)], 1⟩, true, true⟩
        (fun _ => .statusError 404) "f1" ⟨"msg", some "c1"⟩).store).map Store.messages
      = some [("c1", ⟨"user", "hi", 0⟩)] := by
  have h := (claim_C4 ⟨some ⟨["c1"], [("c1", ⟨"user", "hi", 0⟩)], 1⟩, true, true⟩
      (fun _ => .statusError 404) "f1" ⟨"msg", some "c1"⟩ (fun _ => trivial)).2.1
  rw [h]
  rfl

/-- Claim C5 counterexample: a chat request carrying the malformed
conversation id "not-a-uuid", with the store configured and reachable, is
not rejected: it proceeds, calls the backend and succeeds. -/
theorem claim_C5_counterexample :
    (chat ⟨some emptyStore, true, true⟩ (fun _ => .success (some "pong")) "f1"
        ⟨"ping", some "not-a-uuid"⟩).result = .ok ⟨"pong", "not-a-uuid", MODEL_NAME⟩
    ∧ validUUID "not-a-uuid" = false := ⟨rfl, rfl⟩

/-- Claim C5 as amended: a malformed conversation id is never rejected
with a validation error. In chat the uuid parse failure is swallowed like
a store error: the request proceeds with empty history, calls the backend,
succeeds, and persists nothing. In get_history it surfaces as a 500
internal error, not a validation rejection. -/
theorem claim_C5 (s : Store) (cid excDetail freshId msg : String) (body : Option String)
    (hv : validUUID cid = false) (hne : cid ≠ "") :
    (chat ⟨some s, true, true⟩ (fun _ => .success body) freshId ⟨msg, some cid⟩).result
        = .ok ⟨pyStrip (body.getD ""), cid, MODEL_NAME⟩
    ∧ chatPrompt ⟨some s, true, true⟩ freshId ⟨msg, some cid⟩ = build_prompt [] msg
    ∧ (chat ⟨some s, true, true⟩ (fun _ => .success body) freshId ⟨msg, some cid⟩).store
        = some s
    ∧ ∀ ro w : Bool, get_history ⟨some s, ro, w⟩ excDetail cid = .error ⟨500, excDetail⟩ := by
  have hcid : chatConvId freshId ⟨msg, some cid⟩ = cid := by simp [chatConvId, hne]
  have hload : loadHistory ⟨some s, true, true⟩ cid = ([], some s) := by
    simp [loadHistory, hv]
  refine ⟨?_, ?_, ?_, ?_⟩
  · have hr : (chat ⟨some s, true, true⟩ (fun _ => .success body) freshId
        ⟨msg, some cid⟩).result
        = .ok ⟨pyStrip (body.getD ""), chatConvId freshId ⟨msg, some cid⟩, MODEL_NAME⟩ := rfl
    rw [hr, hcid]
  · unfold chatPrompt
    rw [hcid, hload]
  · have hs : (chat ⟨some s, true, true⟩ (fun _ => .success body) freshId
        ⟨msg, some cid⟩).store
        = persistTurns ⟨some s, true, true⟩
            (loadHistory ⟨some s, true, true⟩ (chatConvId freshId ⟨msg, some cid⟩)).2
            (chatConvId freshId ⟨msg, some cid⟩) msg (pyStrip (body.getD "")) := rfl
    rw [hs, hcid, hload]
    simp [persistTurns, hv]
  · intro ro w
    simp [get_history, hv]

/-- Claim C5 witness for the amended statement. -/
theorem claim_C5_witness :
    (chat ⟨some emptyStore, true, true⟩ (fun _ => .success (some " pong ")) "f2"
        ⟨"ping", some "also-not-a-uuid"⟩).result
      = .ok ⟨"pong", "also-not-a-uuid", MODEL_NAME⟩ := by
  have h := (claim_C5 emptyStore "also-not-a-uuid" "boom" "f2" "ping" (some " pong ")
      (by decide) (by decide)).1
  rw [h]
  rfl

/-- Claim C6: with a reachable store, the history loaded for prompt
assembly is exactly the at-most-10 most recent turns presented
oldest-first (the suffix of the conversation in insertion order), obtained
by taking the 10 newest rows and reversing; on a store failure or missing
pool the empty history is used; and the prompt submitted by chat is built
from precisely this loaded history. -/
theorem claim_C6 (s : Store) (cid : String) (hwf : s.WF) (hv : validUUID cid = true) :
    (loadHistory ⟨some s, true, true⟩ cid).1
        = ((s.msgsAsc cid).drop ((s.msgsAsc cid).length - 10)).map
            (fun t => ⟨t.role, t.content⟩)
    ∧ (loadHistory ⟨some s, true, true⟩ cid).1.length ≤ 10
    ∧ (∀ env : StoreEnv, env.pool = none ∨ env.readOk = false →
        (loadHistory env cid).1 = [])
    ∧ ∀ (env : StoreEnv) (f : String) (r : ChatRequest),
        chatPrompt env f r = build_prompt (loadHistory env (chatConvId f r)).1 r.message := by
  have h1 : (loadHistory ⟨some s, true, true⟩ cid).1
      = ((s.insertConversation cid).selectDesc cid 10).reverse.map
          (fun t => (⟨t.role, t.content⟩ : Msg)) := by
    simp [loadHistory, hv]
  have h2 : (loadHistory ⟨some s, true, true⟩ cid).1
      = ((s.msgsAsc cid).drop ((s.msgsAsc cid).length - 10)).map
          (fun t => (⟨t.role, t.content⟩ : Msg)) := by
    rw [h1, selectDesc_reverse_eq (insertConversation_WF hwf cid) cid,
      insertConversation_msgsAsc]
  refine ⟨h2, ?_, fun env h => loadHistory_fail cid h, fun env f r => rfl⟩
  rw [h2]
  simp only [List.length_map, List.length_drop]
  omega

/-- Claim C6 witness: a two-turn conversation is loaded in full,
oldest-first. -/
theorem claim_C6_witness :
    (loadHistory
        ⟨some ⟨["123e4567-e89b-12d3-a456-426614174000"],
            [("123e4567-e89b-12d3-a456-426614174000", ⟨"user", "hi", 0⟩),
             ("123e4567-e89b-12d3-a456-426614174000", ⟨"assistant", "hello", 1⟩)], 2⟩,
          true, true⟩
        "123e4567-e89b-12d3-a456-426614174000").1
      = [⟨"user", "hi"⟩, ⟨"assistant", "hello"⟩] := by
  have h := (claim_C6
      ⟨["123e4567-e89b-12d3-a456-426614174000"],
        [("123e4567-e89b-12d3-a456-426614174000", ⟨"user", "hi", 0⟩),
         ("123e4567-e89b-12d3-a456-426614174000", ⟨"assistant", "hello", 1⟩)], 2⟩
      "123e4567-e89b-12d3-a456-426614174000" ⟨by decide, by decide⟩ (by decide)).1
  rw [h]
  decide

/-- Claim C7 counterexample to the claim as stated: a caller-supplied
conversation id (the empty string) is not echoed back; Python truthiness
treats it as absent and a fresh id is returned instead. -/
theorem claim_C7_counterexample :
    (chat ⟨none, true, true⟩ (fun _ => .success (some "hello")) "fresh-id-1"
        ⟨"hi", some ""⟩).result = .ok ⟨"hello", "fresh-id-1", MODEL_NAME⟩
    ∧ ("fresh-id-1" : String) ≠ "" := ⟨rfl, by decide⟩

/-- Claim C7 as amended: a successful chat response carries the generated
text, the model identifier and the resolved conversation id, where a
supplied nonempty id is echoed back unchanged and a missing or empty id is
replaced by the freshly generated one. -/
theorem claim_C7 (env : StoreEnv) (freshId : String) (req : ChatRequest) (body : Option String) :
    (chat env (fun _ => .success body) freshId req).result
        = .ok ⟨pyStrip (body.getD ""), chatConvId freshId req, MODEL_NAME⟩
    ∧ (∀ c : String, req.conversation_id = some c → c ≠ "" → chatConvId freshId req = c)
    ∧ ((req.conversation_id = none ∨ req.conversation_id = some "") →
        chatConvId freshId req = freshId) := by
  refine ⟨rfl, ?_, ?_⟩
  · intro c hc hne
    simp [chatConvId, hc, hne]
  · intro h
    rcases h with h | h <;> simp [chatConvId, h]

/-- Claim C7 witness: a supplied nonempty id is echoed unchanged. -/
theorem claim_C7_witness :
    chatConvId "f9" ⟨"hi", some "abc"⟩ = "abc" :=
  (claim_C7 ⟨none, true, true⟩ "f9" ⟨"hi", some "abc"⟩ none).2.1 "abc" rfl (by decide)

/-- Claim C8: with the store available, the history fetch returns the
turns of the conversation in ascending created_at order, matching
insertion order; with the pool unconfigured it fails with 503, with the
store failing it fails with 500 — both distinct from an empty list — and
an ok empty result occurs exactly when the conversation has no
messages. -/
theorem claim_C8 (s : Store) (excDetail cid : String) (hwf : s.WF) (hv : validUUID cid = true) :
    get_history ⟨some s, true, true⟩ excDetail cid
        = .ok ((s.msgsAsc cid).map
            (fun t => ⟨t.role, t.content, some (toString t.created_at)⟩))
    ∧ (s.msgsAsc cid).Pairwise (fun a b => a.created_at ≤ b.created_at)
    ∧ (∀ ro w : Bool, get_history ⟨none, ro, w⟩ excDetail cid
        = .error ⟨503, "Database not available"⟩)
    ∧ (∀ w : Bool, get_history ⟨some s, false, w⟩ excDetail cid = .error ⟨500, excDetail⟩)
    ∧ (get_history ⟨some s, true, true⟩ excDetail cid = .ok [] ↔ s.msgsAsc cid = []) := by
  have hsel : s.selectAsc cid = s.msgsAsc cid := by
    unfold Store.selectAsc
    exact insertionSort_le_eq (msgsAsc_pairwise hwf cid)
  have h1 : get_history ⟨some s, true, true⟩ excDetail cid
      = .ok ((s.msgsAsc cid).map
          (fun t => (⟨t.role, t.content, some (toString t.created_at)⟩ : Message))) := by
    simp [get_history, hv, hsel]
  refine ⟨h1, (msgsAsc_pairwise hwf cid).imp (fun hab => Nat.le_of_lt hab),
    fun ro w => rfl, fun w => by simp [get_history, hv], ?_⟩
  rw [h1]
  simp

/-- Claim C8 witness: the three-turn example round-trips in insertion
order with ascending timestamps. -/
theorem claim_C8_witness :
    get_history
        ⟨some ⟨["99999999-aaaa-4bbb-8ccc-000000000000"],
            [("99999999-aaaa-4bbb-8ccc-000000000000", ⟨"user", "hi", 0⟩),
             ("99999999-aaaa-4bbb-8ccc-000000000000", ⟨"assistant", "hello", 1⟩),
             ("99999999-aaaa-4bbb-8ccc-000000000000", ⟨"user", "how are you", 2⟩)], 3⟩,
          true, true⟩ "boom"
        "99999999-aaaa-4bbb-8ccc-000000000000"
      = .ok [⟨"user", "hi", some "0"⟩, ⟨"assistant", "hello", some "1"⟩,
          ⟨"user", "how are you", some "2"⟩] := by
  have h := (claim_C8
      ⟨["99999999-aaaa-4bbb-8ccc-000000000000"],
        [("99999999-aaaa-4bbb-8ccc-000000000000", ⟨"user", "hi", 0⟩),
         ("99999999-aaaa-4bbb-8ccc-000000000000", ⟨"assistant", "hello", 1⟩),
         ("99999999-aaaa-4bbb-8ccc-000000000000", ⟨"user", "how are you", 2⟩)], 3⟩
      "boom" "99999999-aaaa-4bbb-8ccc-000000000000" ⟨by decide, by decide⟩ (by decide)).1
  rw [h]
  rfl

end AIModel
